import Mathlib

/-!
Verification development for the l8myfamiliy agent-side pipeline:
the laptop agent (go/myf/agent/laptop), the Android agent service
(LocationService.java) and the gomobile-bound mfagent package.
Go strings are modelled as Lean strings; Go `len` on a string is the
UTF-8 byte length; `strings.TrimSpace` trims Unicode white space.
-/

namespace MyFamily

/-- Go `unicode.IsSpace`: White_Space code points (Latin-1 range plus
the Zs/Zl/Zp separators). -/
def goIsSpace (c : Char) : Bool :=
  c.val = 9 ∨ c.val = 10 ∨ c.val = 11 ∨ c.val = 12 ∨ c.val = 13 ∨ c.val = 32 ∨
  c.val = 0x85 ∨ c.val = 0xA0 ∨ c.val = 0x1680 ∨
  (0x2000 ≤ c.val ∧ c.val ≤ 0x200A) ∨
  c.val = 0x2028 ∨ c.val = 0x2029 ∨ c.val = 0x202F ∨ c.val = 0x205F ∨ c.val = 0x3000

/-- Go `strings.TrimSpace`: drop leading and trailing white space. -/
def trimSpace (s : String) : String :=
  ⟨((s.data.dropWhile goIsSpace).reverse.dropWhile goIsSpace).reverse⟩

/-- Go `len` on a string: its UTF-8 byte length. -/
def goStrLen (s : String) : Nat :=
  s.data.foldl (fun n c => n + c.utf8Size) 0

/-- Contiguous-substring search on character lists: does `pat` occur in `l`? -/
def containsSeq (l pat : List Char) : Bool :=
  pat.isPrefixOf l ||
    match l with
    | [] => false
    | _ :: t => containsSeq t pat

/-- Java `String.contains` / Go `strings.Contains`: substring test. -/
def strContains (s pat : String) : Bool :=
  containsSeq s.data pat.data

/-- A latitude/longitude pair (`l8myfamily.Location` / mfagent `Location`).
Coordinate values are modelled by the exact rational value of the stored
floating-point number. -/
structure Location where
  latitude : ℚ
  longitude : ℚ
deriving DecidableEq, Repr

/-! ## LocationChain — laptop agent `getLocation` (main.go)

`getLocation` tries GeoClue first and falls back to IP geolocation.
The outcome of each source is passed in explicitly; the function body
mirrors the control flow of `getLocation` in main.go. -/

/-- `getLocation` from laptop main.go: try GeoClue, on failure fall back
to IP-based geolocation, wrapping the final error. -/
def getLocation (geoClue geoIP : Except String Location) : Except String Location :=
  match geoClue with
  | .ok l => .ok l
  | .error _ =>
    match geoIP with
    | .ok l => .ok l
    | .error e => .error ("all location methods failed: " ++ e)

/-! ## AgentLoop auth-retry — Android `LocationService.postLocation`

The Android service posts each fix on an executor; on an exception whose
message looks like an authorization failure it re-authenticates once and
retries the post once; any further failure is logged and the cycle ends.
The outcomes of the (up to) two posts and of the re-authentication are
passed in; the returned pair of counters records how many times
`Mfagent.postLocation` and `Mfagent.reAuthenticate` were invoked. -/

/-- The Java check `errorMsg.contains("401") || errorMsg.contains("unauthorized")`. -/
def isAuthFailureMsg (msg : String) : Bool :=
  strContains msg "401" || strContains msg "unauthorized"

/-- How a posting cycle of the Android `LocationService` ends. -/
inductive CycleResult where
  | posted
  | postedAfterReauth
  | skippedUninitialized
  | skipped
deriving DecidableEq, Repr

/-- `LocationService.postLocation` (executor task body): result of the cycle,
number of `postLocation` calls, number of `reAuthenticate` calls. -/
def postLocationCycle (initialized : Bool) (first reauth second : Except String Unit) :
    CycleResult × Nat × Nat :=
  if ¬ initialized then (.skippedUninitialized, 0, 0)
  else
    match first with
    | .ok _ => (.posted, 1, 0)
    | .error msg =>
      if isAuthFailureMsg msg then
        match reauth with
        | .error _ => (.skipped, 1, 1)
        | .ok _ =>
          match second with
          | .ok _ => (.postedAfterReauth, 2, 1)
          | .error _ => (.skipped, 2, 1)
      else (.skipped, 1, 0)

/-- laptop main.go `collectAndPost`: acquire a location and post it once;
any failure is logged and the cycle simply returns. No re-authentication
and no retry exist in this variant. The pair counts `postLocation` and
re-authentication calls, as in `postLocationCycle`. -/
def collectAndPost (acquire : Except String Location) (post : Except String Unit) :
    CycleResult × Nat × Nat :=
  match acquire with
  | .error _ => (.skipped, 0, 0)
  | .ok _ =>
    match post with
    | .ok _ => (.posted, 1, 0)
    | .error _ => (.skipped, 1, 0)

/-! ## System-location protocol walk — laptop `geoclue_location.go`

`getLocationFromGDBus` drives the GeoClue2 daemon over `gdbus`: obtain a
client, set a DesktopId (trying a fixed list until one is accepted), set
the accuracy, start the client, poll the `Location` property up to 30
times, read the coordinates. The daemon's behaviour is an environment of
outcomes; the Bool in the result records whether `stopGeoClueClient` ran
before the function returned (the `defer` is installed only after a
successful Start). -/

/-- The ordered DesktopId fallback list from `getLocationFromGDBus`. -/
def desktopIDs : List String :=
  ["l8myfamily-agent", "org.gnome.Shell", "gnome-shell", "firefox",
   "org.mozilla.firefox", "chromium", "google-chrome"]

/-- Outcomes of the individual `gdbus` calls made by the protocol walk.
`pollResults i = some path` means the i-th poll of the client's `Location`
property yielded the usable object path `path`; `none` covers a failed
read, an empty path, and the placeholder path "/". -/
structure GdbusEnv where
  clientPath : Except String String
  desktopAccept : String → Bool
  accuracyOk : Bool
  startOk : Bool
  pollResults : Nat → Option String
  locData : String → Except String Location

/-- `waitForGeoClueLocation`: poll up to 30 times, and on the first usable
location path read its coordinates; otherwise time out. -/
def waitForGeoClueLocation (env : GdbusEnv) : Except String Location :=
  match (List.range 30).findSome? env.pollResults with
  | some path => env.locData path
  | none => .error "timeout waiting for GeoClue location"

/-- `getLocationFromGDBus`: the full protocol walk. The second component
is true iff `stopGeoClueClient` was called before returning. -/
def getLocationFromGDBus (env : GdbusEnv) : Except String Location × Bool :=
  match env.clientPath with
  | .error e => (.error ("failed to get GeoClue client: " ++ e), false)
  | .ok _ =>
    if ¬ desktopIDs.any env.desktopAccept then
      (.error "failed to set desktop ID", false)
    else if ¬ env.accuracyOk then
      (.error "failed to set accuracy level", false)
    else if ¬ env.startOk then
      (.error "failed to start GeoClue client", false)
    else
      (waitForGeoClueLocation env, true)

/-! ## SecretBox — `encrypt` / `decrypt` (laptop main.go, mfagent part)

Both agents seal credentials with AES-256-GCM under a key that is the
SHA-256 hash of the device id concatenated with a per-agent constant
salt, prefix a fresh random nonce, and base64-encode the blob. The
AES-GCM and SHA-256 primitives are the Go standard library, not code of
this repository, so they are modelled symbolically. -/

/-- Modelled from the spec: SHA-256 (`crypto/sha256`, absent from src/)
is "a cryptographic hash" of `deviceId` concatenated with a constant
salt (§4.1); it is modelled as an injective function of that input,
namely the concatenation itself. `getEncryptionKey` in both agents. -/
def getEncryptionKey (deviceID salt : String) : String :=
  deviceID ++ salt

/-- The salt constant of the laptop agent's `getEncryptionKey`. -/
def laptopSalt : String := "l8myfamily-laptop-agent"

/-- The salt constant of the mfagent (Android) `getEncryptionKey`. -/
def androidSalt : String := "l8myfamily-android-agent"

/-- A sealed credential blob: the nonce-prefixed, authenticated
ciphertext produced by `gcm.Seal` and carried base64-encoded in the
config file. In the symbolic model it records the key and nonce it was
sealed under together with the plaintext. -/
structure SealedBlob where
  key : String
  nonce : List Nat
  plaintext : String
deriving DecidableEq, Repr

/-- Modelled from the spec: `gcm.Seal` (`crypto/cipher`, absent from
src/) — "an authenticated-encryption cipher using a fresh random nonce
per call; store nonce prefixed to ciphertext" (§4.1). -/
def gcmSeal (key : String) (nonce : List Nat) (p : String) : SealedBlob :=
  ⟨key, nonce, p⟩

/-- Modelled from the spec: `gcm.Open` (`crypto/cipher`, absent from
src/) — opening "fails with DecryptError if … the authentication tag
does not verify" (§4.1); in the symbolic model the tag verifies exactly
when the key matches the one the blob was sealed under. -/
def gcmOpen (key : String) (b : SealedBlob) : Option String :=
  if b.key = key then some b.plaintext else none

/-- `encrypt` from both agents: seal under the key derived from the
device id; the fresh random nonce is passed in. -/
def encrypt (salt deviceID : String) (nonce : List Nat) (p : String) : SealedBlob :=
  gcmSeal (getEncryptionKey deviceID salt) nonce p

/-- `decrypt` from both agents: open under the key derived from the
device id. -/
def decrypt (salt deviceID : String) (b : SealedBlob) : Option String :=
  gcmOpen (getEncryptionKey deviceID salt) b

/-! ## ConfigStore — mfagent `SaveConfig` / `LoadConfig` (part_004)

The mutable package-level state of mfagent relevant to the config file,
and the save/load pair. `uuid.New().String()` results are passed in as
oracle arguments, as are the random nonces of the two `encrypt` calls. -/

/-- The mfagent package-level configuration state. -/
structure AgentState where
  deviceID : String
  deviceName : String
  website : String
  user : String
  pass : String
  skipTLSVerify : Bool
deriving DecidableEq, Repr

/-- The JSON config file (`Config` struct). The encrypted fields and the
TLS flag are `omitempty`/pointer fields: `none` models an absent field
(the empty string for the blobs, `nil` for the pointer). -/
structure ConfigFile where
  deviceID : String
  deviceName : String
  website : String
  encryptedUser : Option SealedBlob
  encryptedPass : Option SealedBlob
  skipTLSVerify : Option Bool
deriving DecidableEq, Repr

/-- mfagent `SaveConfig`: generate a device id if empty, encrypt the
credentials, write all fields. Returns the updated state and the
written file. -/
def SaveConfig (s : AgentState) (uuid : String) (nU nP : List Nat) :
    AgentState × ConfigFile :=
  let s := if s.deviceID = "" then { s with deviceID := uuid } else s
  (s,
   { deviceID := s.deviceID
     deviceName := s.deviceName
     website := s.website
     encryptedUser := some (encrypt androidSalt s.deviceID nU s.user)
     encryptedPass := some (encrypt androidSalt s.deviceID nP s.pass)
     skipTLSVerify := some s.skipTLSVerify })

/-- mfagent `LoadConfig` applied to a parsed file: take the device id
from the file (or a fresh uuid if empty), copy name/website, apply the
TLS flag if present, and decrypt each credential field, keeping the
previous value when the field is absent or decryption fails. -/
def LoadConfig (s : AgentState) (f : ConfigFile) (uuid : String) : AgentState :=
  let did := if f.deviceID = "" then uuid else f.deviceID
  let s := { s with deviceID := did, deviceName := f.deviceName, website := f.website }
  let s := match f.skipTLSVerify with
    | some b => { s with skipTLSVerify := b }
    | none => s
  let s := match f.encryptedUser with
    | some blob =>
      match decrypt androidSalt did blob with
      | some u => { s with user := u }
      | none => s
    | none => s
  let s := match f.encryptedPass with
    | some blob =>
      match decrypt androidSalt did blob with
      | some p => { s with pass := p }
      | none => s
    | none => s
  s

/-! ## AuthClient — mfagent `Authenticate` / `VerifyTfa` (part_004) and
laptop `authenticate` (main.go)

The HTTP exchange is an oracle: the delivered response carries the
status, the raw body, and the result of `json.Unmarshal` on the body. -/

/-- The mfagent `AuthResponse` JSON structure. -/
structure AuthResponse where
  token : String
  needTfa : Bool
  setupTfa : Bool
deriving DecidableEq, Repr

/-- A delivered response of the `/auth` endpoint: HTTP status, raw body,
and the result of attempting to decode the body as `AuthResponse`. -/
structure AuthHttp where
  status : Nat
  body : String
  parsed : Option AuthResponse
deriving Repr

/-- The mfagent package-level authentication state. -/
structure MfState where
  website : String
  user : String
  pass : String
  bearerToken : String
  pendingTfaToken : String
  tfaRequired : Bool
  initialized : Bool
deriving DecidableEq, Repr

/-- The legacy plain-token fallback tail of mfagent `Authenticate`:
treat the trimmed body as the token. -/
def authPlainToken (s : MfState) (body : String) : Except String Unit × MfState :=
  let token := trimSpace body
  if token = "" then (.error "authentication failed: empty response", s)
  else (.ok (), { s with bearerToken := token, initialized := true })

/-- mfagent `Authenticate`: config checks, clearing of previous TFA
state, status check, then the three-way interpretation of the body
(needTfa / setupTfa / token), with the plain-token fallback. -/
def Authenticate (s : MfState) (resp : AuthHttp) : Except String Unit × MfState :=
  if s.website = "" then (.error "website not configured", s)
  else if s.user = "" ∨ s.pass = "" then (.error "credentials not configured", s)
  else
    let s := { s with tfaRequired := false, pendingTfaToken := "" }
    if resp.status ≠ 200 then
      (.error ("authentication failed: " ++ trimSpace resp.body), s)
    else
      match resp.parsed with
      | some a =>
        if a.needTfa then
          (.error "TFA_REQUIRED", { s with tfaRequired := true, pendingTfaToken := a.token })
        else if a.setupTfa then
          (.error "TFA setup required - please complete TFA setup via web browser first", s)
        else if a.token ≠ "" then
          (.ok (), { s with bearerToken := a.token, initialized := true })
        else authPlainToken s resp.body
      | none => authPlainToken s resp.body

/-- The mfagent `TfaVerifyResponse` JSON structure. -/
structure TfaVerifyResponse where
  ok : Bool
  error : String
deriving DecidableEq, Repr

/-- Outcome of the network exchange of `VerifyTfa`: transport failure,
a body `json.Unmarshal` rejects, or a decoded response. -/
inductive TfaNet where
  | transportError (msg : String)
  | unparsable
  | response (r : TfaVerifyResponse)
deriving DecidableEq, Repr

/-- mfagent `VerifyTfa`: the pending check and the length check precede
the network exchange. The Bool in the result records whether the network
call was issued. Go's `len` is the UTF-8 byte length (`goStrLen`). -/
def VerifyTfa (s : MfState) (code : String) (net : TfaNet) :
    Except String Unit × MfState × Bool :=
  if ¬ s.tfaRequired ∨ s.pendingTfaToken = "" then
    (.error "no TFA verification pending", s, false)
  else
    let code := trimSpace code
    if goStrLen code ≠ 6 then
      (.error "invalid TFA code: must be 6 digits", s, false)
    else
      match net with
      | .transportError m => (.error ("TFA verification request failed: " ++ m), s, true)
      | .unparsable => (.error "failed to parse TFA response", s, true)
      | .response r =>
        if ¬ r.ok then
          let m := if r.error = "" then "invalid verification code" else r.error
          (.error ("TFA verification failed: " ++ m), s, true)
        else
          (.ok (), { s with bearerToken := s.pendingTfaToken, initialized := true,
                            tfaRequired := false, pendingTfaToken := "" }, true)

/-- The laptop agent's package-level authentication state. -/
structure LaptopState where
  website : String
  user : String
  pass : String
  bearerToken : String
deriving DecidableEq, Repr

/-- laptop main.go `authenticate`: posts the credentials, reads the
response body, and stores any non-empty trimmed body as the bearer
token. The HTTP status of the delivered response is never inspected
(the `status` argument is unused, as in the source). -/
def authenticateLaptop (s : LaptopState) (_status : Nat) (body : String) :
    Except String Unit × LaptopState :=
  let token := trimSpace body
  if token = "" then (.error "authentication failed: empty response", s)
  else (.ok (), { s with bearerToken := token })

/-! ## IP geolocation — laptop `getLocationFromGeoIP` (main.go)

`getLocationFromGeoIP` decodes `{"lat":…,"lon":…}` into float64 fields
(`encoding/json` parses a decimal literal to the nearest float64) and
converts them to the float32 fields of `l8myfamily.Location`
(`float32(geoResp.Lat)`, rounding to the nearest float32). Floating
point values are modelled by their exact rational values: a `Frac` is an
exact fraction `num / den`, and `floatRoundF prec` is IEEE-754
round-to-nearest-even at a `prec`-bit significand. -/

/-- An exact fraction `num / den` (with `den > 0` at every use site). -/
structure Frac where
  num : ℤ
  den : ℕ
deriving DecidableEq, Repr

/-- The rational value of a `Frac`. -/
def Frac.toRat (f : Frac) : ℚ := f.num / f.den

/-- `⌊log₂ (m / d)⌋` for `m, d > 0`, by fuel-bounded halving/doubling. -/
def floorLog2F : ℕ → ℤ → ℤ → ℤ
  | 0, _, _ => 0
  | fuel+1, m, d =>
    if m < d then floorLog2F fuel (2*m) d - 1
    else if m < 2*d then 0
    else floorLog2F fuel m (2*d) + 1

/-- Round `a / b` (with `b > 0`) to the nearest integer, ties to even. -/
def roundHalfEvenInt (a b : ℤ) : ℤ :=
  let q := Int.fdiv a b
  let r := a - q * b
  if 2*r < b then q
  else if b < 2*r then q + 1
  else if q % 2 = 0 then q else q + 1

/-- Round the positive fraction `m / d` to the nearest floating-point
value with a `prec`-bit significand (IEEE round-to-nearest-even, normal
range). -/
def floatRoundPosF (prec : ℕ) (m : ℤ) (d : ℕ) : Frac :=
  let e := floorLog2F 1200 m d
  let scale := e - ((prec : ℤ) - 1)
  if scale ≤ 0 then
    let g : ℕ := 2 ^ (-scale).toNat
    ⟨roundHalfEvenInt (m * g) d, g⟩
  else
    let g : ℕ := 2 ^ scale.toNat
    ⟨roundHalfEvenInt m (d * g) * g, 1⟩

/-- Round a fraction to the nearest `prec`-bit floating-point value. -/
def floatRoundF (prec : ℕ) (f : Frac) : Frac :=
  if f.num = 0 then ⟨0, 1⟩
  else if f.num < 0 then
    let r := floatRoundPosF prec (-f.num) f.den
    ⟨-r.num, r.den⟩
  else floatRoundPosF prec f.num f.den

/-- Rounding to float64 (53-bit significand), as `encoding/json` does
when decoding a JSON number into a `float64` field. -/
def float64F : Frac → Frac := floatRoundF 53

/-- Rounding to float32 (24-bit significand), as Go's `float32(x)`
conversion does. -/
def float32F : Frac → Frac := floatRoundF 24

/-- laptop `getLocationFromGeoIP` applied to a delivered JSON body
`{"lat":lat,"lon":lon}` whose decimal literals have the exact values
`lat` and `lon`: decode each to float64, then store as the float32
fields of `l8myfamily.Location`. -/
def getLocationFromGeoIP (lat lon : Frac) : Location :=
  { latitude := (float32F (float64F lat)).toRat
    longitude := (float32F (float64F lon)).toRat }

end MyFamily

namespace MyFamily

/-- C5: the chain returns the system-location result whenever that source
succeeds; the IP result only when the system source fails; and fails
exactly when both sources fail. -/
theorem getLocation_chain (sys ip : Except String Location) :
    (∀ l, sys = .ok l → getLocation sys ip = .ok l) ∧
    (∀ e l, sys = .error e → ip = .ok l → getLocation sys ip = .ok l) ∧
    (∀ e e', sys = .error e → ip = .error e' →
      getLocation sys ip = .error ("all location methods failed: " ++ e')) := by
  refine ⟨?_, ?_, ?_⟩
  · intro l h; subst h; rfl
  · intro e l h h'; subst h; subst h'; rfl
  · intro e e' h h'; subst h; subst h'; rfl

/-- C1: in a cycle where the first post fails with a message carrying the
HTTP 401 signal, re-authentication succeeds, and the retried post fails
again, the Android posting cycle makes exactly two `postLocation` calls
and exactly one `reAuthenticate` call, ends as a skipped cycle, and
returns normally (the loop continues with the next location fix). -/
theorem postLocationCycle_auth_retry_bound (msg msg2 : String)
    (h401 : strContains msg "401" = true) :
    postLocationCycle true (.error msg) (.ok ()) (.error msg2) =
      (.skipped, 2, 1) := by
  simp [postLocationCycle, isAuthFailureMsg, h401]

/-- Witness for C1: a concrete 401 failure message, twice in a row. -/
theorem postLocationCycle_auth_retry_bound_witness :
    postLocationCycle true (.error "server returned status 401: token expired")
      (.ok ()) (.error "server returned status 401: token expired") =
      (.skipped, 2, 1) :=
  postLocationCycle_auth_retry_bound _ _ (by decide)

/-- C2 counterexample: the laptop `authenticate` never inspects the HTTP
status; on a 401 response with body "Invalid credentials" it reports
success and stores the error body as the bearer token, contradicting the
claim that every non-success status fails with the token left unset. -/
theorem authenticateLaptop_ignores_status :
    authenticateLaptop ⟨"https://x", "fam", "pw", ""⟩ 401 "Invalid credentials" =
      (.ok (), ⟨"https://x", "fam", "pw", "Invalid credentials"⟩) := by
  rfl

/-- C2 (amended): in the mfagent `Authenticate`, every delivered response
with a non-200 status fails with an error carrying the (trimmed) response
body, and the bearer token keeps its previous value. -/
theorem Authenticate_non200_fails (s : MfState) (resp : AuthHttp)
    (hw : s.website ≠ "") (hu : s.user ≠ "") (hp : s.pass ≠ "")
    (hs : resp.status ≠ 200) :
    Authenticate s resp =
      (.error ("authentication failed: " ++ trimSpace resp.body),
        { s with tfaRequired := false, pendingTfaToken := "" }) ∧
    (Authenticate s resp).2.bearerToken = s.bearerToken := by
  constructor <;> simp [Authenticate, hw, hu, hp, hs]

/-- Witness for C2's amended theorem at a concrete 401 response. -/
theorem Authenticate_non200_fails_witness :
    Authenticate ⟨"https://x", "fam", "pw", "tok0", "", false, false⟩
        ⟨401, " bad credentials ", none⟩ =
      (.error "authentication failed: bad credentials",
        ⟨"https://x", "fam", "pw", "tok0", "", false, false⟩) ∧
    (Authenticate ⟨"https://x", "fam", "pw", "tok0", "", false, false⟩
        ⟨401, " bad credentials ", none⟩).2.bearerToken = "tok0" :=
  Authenticate_non200_fails _ _ (by decide) (by decide) (by decide) (by decide)

/-- C3: a 200 response decoding with `needTfa = true` leaves the session
awaiting the second factor — the provisional token is stored only as the
pending TFA token and the bearer token stays empty — and a subsequent
successful `VerifyTfa` sets the bearer token to exactly that pending
token, clears the pending state, and succeeds. -/
theorem Authenticate_needTfa_flow (s : MfState) (resp : AuthHttp)
    (a : AuthResponse) (code : String) (r : TfaVerifyResponse)
    (hw : s.website ≠ "") (hu : s.user ≠ "") (hp : s.pass ≠ "")
    (hb : s.bearerToken = "")
    (hst : resp.status = 200) (hpar : resp.parsed = some a)
    (hneed : a.needTfa = true) (htok : a.token ≠ "")
    (hlen : goStrLen (trimSpace code) = 6) (hok : r.ok = true) :
    (Authenticate s resp).1 = .error "TFA_REQUIRED" ∧
    (Authenticate s resp).2.tfaRequired = true ∧
    (Authenticate s resp).2.pendingTfaToken = a.token ∧
    (Authenticate s resp).2.bearerToken = "" ∧
    (VerifyTfa (Authenticate s resp).2 code (.response r)).1 = .ok () ∧
    (VerifyTfa (Authenticate s resp).2 code (.response r)).2.1.bearerToken = a.token ∧
    (VerifyTfa (Authenticate s resp).2 code (.response r)).2.1.tfaRequired = false ∧
    (VerifyTfa (Authenticate s resp).2 code (.response r)).2.1.pendingTfaToken = "" := by
  have hA : Authenticate s resp =
      (.error "TFA_REQUIRED",
        { s with tfaRequired := true, pendingTfaToken := a.token }) := by
    simp [Authenticate, hw, hu, hp, hst, hpar, hneed]
  rw [hA]
  refine ⟨rfl, rfl, rfl, hb, ?_⟩
  simp [VerifyTfa, htok, hlen, hok]

/-- Witness for C3 at a concrete needTfa response and a correct code. -/
theorem Authenticate_needTfa_flow_witness :
    (Authenticate ⟨"https://x", "fam", "pw", "", "", false, false⟩
        ⟨200, "jsonbody", some ⟨"tok123", true, false⟩⟩).1 = .error "TFA_REQUIRED" ∧
    (Authenticate ⟨"https://x", "fam", "pw", "", "", false, false⟩
        ⟨200, "jsonbody", some ⟨"tok123", true, false⟩⟩).2.tfaRequired = true ∧
    (Authenticate ⟨"https://x", "fam", "pw", "", "", false, false⟩
        ⟨200, "jsonbody", some ⟨"tok123", true, false⟩⟩).2.pendingTfaToken = "tok123" ∧
    (Authenticate ⟨"https://x", "fam", "pw", "", "", false, false⟩
        ⟨200, "jsonbody", some ⟨"tok123", true, false⟩⟩).2.bearerToken = "" ∧
    (VerifyTfa (Authenticate ⟨"https://x", "fam", "pw", "", "", false, false⟩
        ⟨200, "jsonbody", some ⟨"tok123", true, false⟩⟩).2 "123456"
        (.response ⟨true, ""⟩)).1 = .ok () ∧
    (VerifyTfa (Authenticate ⟨"https://x", "fam", "pw", "", "", false, false⟩
        ⟨200, "jsonbody", some ⟨"tok123", true, false⟩⟩).2 "123456"
        (.response ⟨true, ""⟩)).2.1.bearerToken = "tok123" ∧
    (VerifyTfa (Authenticate ⟨"https://x", "fam", "pw", "", "", false, false⟩
        ⟨200, "jsonbody", some ⟨"tok123", true, false⟩⟩).2 "123456"
        (.response ⟨true, ""⟩)).2.1.tfaRequired = false ∧
    (VerifyTfa (Authenticate ⟨"https://x", "fam", "pw", "", "", false, false⟩
        ⟨200, "jsonbody", some ⟨"tok123", true, false⟩⟩).2 "123456"
        (.response ⟨true, ""⟩)).2.1.pendingTfaToken = "" :=
  Authenticate_needTfa_flow _ _ _ _ _ (by decide) (by decide) (by decide) rfl
    rfl rfl rfl (by decide) (by decide) rfl

/-- Opening a blob under the key it was sealed with returns the original
plaintext (used by C4 and C7). -/
theorem decrypt_encrypt (salt id : String) (n : List ℕ) (p : String) :
    decrypt salt id (encrypt salt id n p) = some p := by
  simp [decrypt, encrypt, gcmOpen, gcmSeal]

/-- Key derivation is injective in the device id (fixed salt). -/
theorem getEncryptionKey_inj {salt a b : String}
    (h : getEncryptionKey a salt = getEncryptionKey b salt) : a = b := by
  unfold getEncryptionKey at h
  have hd := congrArg String.data h
  simp only [String.data_append] at hd
  exact String.ext (List.append_left_injective salt.data hd)

/-- C4: sealing a plaintext under a device id and opening under the same
id returns the plaintext; opening under any other id fails (the
authentication tag does not verify). -/
theorem secretBox_roundtrip (salt id id' : String) (n : List ℕ) (p : String)
    (h : id' ≠ id) :
    decrypt salt id (encrypt salt id n p) = some p ∧
    decrypt salt id' (encrypt salt id n p) = none := by
  refine ⟨decrypt_encrypt salt id n p, ?_⟩
  simp only [decrypt, encrypt, gcmOpen, gcmSeal]
  rw [if_neg]
  intro hk
  exact h (getEncryptionKey_inj hk).symm

/-- Witness for C4 with the laptop agent's salt and two distinct ids. -/
theorem secretBox_roundtrip_witness :
    decrypt laptopSalt "idA" (encrypt laptopSalt "idA" [0, 1] "pw") = some "pw" ∧
    decrypt laptopSalt "idB" (encrypt laptopSalt "idA" [0, 1] "pw") = none :=
  secretBox_roundtrip laptopSalt "idA" "idB" [0, 1] "pw" (by decide)

/-- Witness for C5 at concrete source outcomes. -/
theorem getLocation_chain_witness :
    getLocation (.ok ⟨1, 2⟩) (.error "x") = .ok (⟨1, 2⟩ : Location) ∧
    getLocation (.error "a") (.ok ⟨3, 4⟩) = .ok (⟨3, 4⟩ : Location) ∧
    getLocation (.error "a") (.error "b") =
      .error "all location methods failed: b" := by
  refine ⟨(getLocation_chain _ _).1 _ rfl,
          (getLocation_chain _ _).2.1 "a" _ rfl rfl, ?_⟩
  have h := (getLocation_chain (.error "a") (.error "b")).2.2
    "a" "b" rfl rfl
  exact h

/-- C6 counterexample: `VerifyTfa` checks Go's `len`, the UTF-8 byte
length, not the character count. The code "①①" has trimmed length 2
characters but 6 bytes, so with a verification pending it passes the
length check and the network call is issued — the claim's "fails
immediately without issuing any network call for every code whose
trimmed length is not exactly 6 characters" is false. -/
theorem VerifyTfa_charlen_counterexample :
    (trimSpace "①①").length = 2 ∧
    goStrLen (trimSpace "①①") = 6 ∧
    (VerifyTfa ⟨"https://x", "fam", "pw", "", "tok", true, false⟩ "①①"
        (.response ⟨false, ""⟩)).2.2 = true := by
  refine ⟨by decide, by decide, by decide⟩

/-- C6 (amended): `VerifyTfa` fails with the not-pending error whenever
no verification is pending, and with a pending verification it fails
immediately — without issuing the network call — for every code whose
trimmed UTF-8 byte length is not exactly 6; both checks precede the
network exchange. -/
theorem VerifyTfa_prechecks (s : MfState) (code : String) (net : TfaNet) :
    (¬ (s.tfaRequired = true ∧ s.pendingTfaToken ≠ "") →
      VerifyTfa s code net = (.error "no TFA verification pending", s, false)) ∧
    (s.tfaRequired = true → s.pendingTfaToken ≠ "" →
      goStrLen (trimSpace code) ≠ 6 →
      VerifyTfa s code net = (.error "invalid TFA code: must be 6 digits", s, false)) := by
  constructor
  · intro h
    rw [not_and_or] at h
    rcases h with h | h
    · have : ¬ s.tfaRequired := by simpa using h
      simp [VerifyTfa, this]
    · have : s.pendingTfaToken = "" := by simpa using h
      simp [VerifyTfa, this]
  · intro h1 h2 h3
    simp [VerifyTfa, h1, h2, h3]

/-- Witness for C6's amended theorem: a not-pending session rejects any
code without a network call, and a pending session rejects a 5-byte code
without a network call. -/
theorem VerifyTfa_prechecks_witness :
    VerifyTfa ⟨"https://x", "fam", "pw", "", "", false, false⟩ "123456"
        (.response ⟨true, ""⟩) =
      (.error "no TFA verification pending",
        ⟨"https://x", "fam", "pw", "", "", false, false⟩, false) ∧
    VerifyTfa ⟨"https://x", "fam", "pw", "", "tok", true, false⟩ "12345"
        (.response ⟨true, ""⟩) =
      (.error "invalid TFA code: must be 6 digits",
        ⟨"https://x", "fam", "pw", "", "tok", true, false⟩, false) :=
  ⟨(VerifyTfa_prechecks _ "123456" _).1 (by decide),
   (VerifyTfa_prechecks _ "12345" _).2 rfl (by decide) (by decide)⟩

/-- C7: saving the same configuration twice in a row (fresh random
nonces each time, a fresh uuid available in case the device id is still
empty) produces two files that both decode — device-id selection, flag
application and credential decryption included — to the same
configuration state. -/
theorem SaveConfig_idempotent_decode (s : AgentState) (u u' v v' : String)
    (n1 n2 n3 n4 : List ℕ) (t : AgentState) (hu : u ≠ "") :
    LoadConfig t (SaveConfig s u n1 n2).2 v =
      LoadConfig t (SaveConfig (SaveConfig s u n1 n2).1 u' n3 n4).2 v' := by
  by_cases h0 : s.deviceID = ""
  · simp [SaveConfig, LoadConfig, h0, hu, decrypt_encrypt]
  · simp [SaveConfig, LoadConfig, h0, decrypt_encrypt]

/-- Witness for C7 at a concrete state, uuids and nonces. -/
theorem SaveConfig_idempotent_decode_witness :
    LoadConfig ⟨"", "", "", "", "", false⟩
        (SaveConfig ⟨"dev1", "My Laptop", "https://x", "fam", "pw", true⟩
          "uuid-1" [1] [2]).2 "uuid-3" =
      LoadConfig ⟨"", "", "", "", "", false⟩
        (SaveConfig
          (SaveConfig ⟨"dev1", "My Laptop", "https://x", "fam", "pw", true⟩
            "uuid-1" [1] [2]).1 "uuid-2" [3] [4]).2 "uuid-4" :=
  SaveConfig_idempotent_decode ⟨"dev1", "My Laptop", "https://x", "fam", "pw", true⟩
    "uuid-1" "uuid-2" "uuid-3" "uuid-4" [1] [2] [3] [4]
    ⟨"", "", "", "", "", false⟩ (by decide)

/-- C8 counterexample: with the system source failing and the IP endpoint
returning `{"lat":37.7749,"lon":-122.4194}`, the chain succeeds, but the
sample's float32 coordinates equal neither 37.7749 nor -122.4194
exactly — `encoding/json` rounds to float64 and the laptop agent then
stores `float32` values. -/
theorem geoIP_scenario_not_exact :
    getLocation (.error "GeoClue2 service not available")
        (.ok (getLocationFromGeoIP ⟨377749, 10000⟩ ⟨-1224194, 10000⟩)) =
      .ok (getLocationFromGeoIP ⟨377749, 10000⟩ ⟨-1224194, 10000⟩) ∧
    (getLocationFromGeoIP ⟨377749, 10000⟩ ⟨-1224194, 10000⟩).latitude ≠
      377749 / 10000 ∧
    (getLocationFromGeoIP ⟨377749, 10000⟩ ⟨-1224194, 10000⟩).longitude ≠
      -1224194 / 10000 := by
  have h1 : float32F (float64F ⟨377749, 10000⟩) = ⟨9902463, 262144⟩ := by decide
  have h2 : float32F (float64F ⟨-1224194, 10000⟩) = ⟨-16045756, 131072⟩ := by decide
  refine ⟨rfl, ?_, ?_⟩
  · show (float32F (float64F ⟨377749, 10000⟩)).toRat ≠ _
    rw [h1]; norm_num [Frac.toRat]
  · show (float32F (float64F ⟨-1224194, 10000⟩)).toRat ≠ _
    rw [h2]; norm_num [Frac.toRat]

/-- C8 (amended): in that scenario the chain yields the sample whose
coordinates are the float32 values nearest the decimals — latitude
9902463/2^18 and longitude -4011439/2^15 — each within 10^-5 of the
decimal in the JSON body, but not equal to it. -/
theorem geoIP_scenario_float32 :
    getLocation (.error "GeoClue2 service not available")
        (.ok (getLocationFromGeoIP ⟨377749, 10000⟩ ⟨-1224194, 10000⟩)) =
      .ok (getLocationFromGeoIP ⟨377749, 10000⟩ ⟨-1224194, 10000⟩) ∧
    (getLocationFromGeoIP ⟨377749, 10000⟩ ⟨-1224194, 10000⟩).latitude =
      9902463 / 262144 ∧
    (getLocationFromGeoIP ⟨377749, 10000⟩ ⟨-1224194, 10000⟩).longitude =
      -4011439 / 32768 ∧
    377749 / 10000 - 1 / 100000 <
      (getLocationFromGeoIP ⟨377749, 10000⟩ ⟨-1224194, 10000⟩).latitude ∧
    (getLocationFromGeoIP ⟨377749, 10000⟩ ⟨-1224194, 10000⟩).latitude <
      377749 / 10000 + 1 / 100000 ∧
    -1224194 / 10000 - 1 / 100000 <
      (getLocationFromGeoIP ⟨377749, 10000⟩ ⟨-1224194, 10000⟩).longitude ∧
    (getLocationFromGeoIP ⟨377749, 10000⟩ ⟨-1224194, 10000⟩).longitude <
      -1224194 / 10000 + 1 / 100000 := by
  have h1 : float32F (float64F ⟨377749, 10000⟩) = ⟨9902463, 262144⟩ := by decide
  have h2 : float32F (float64F ⟨-1224194, 10000⟩) = ⟨-16045756, 131072⟩ := by decide
  have e1 : (getLocationFromGeoIP ⟨377749, 10000⟩ ⟨-1224194, 10000⟩).latitude =
      (9902463 : ℚ) / 262144 := by
    show (float32F (float64F ⟨377749, 10000⟩)).toRat = _
    rw [h1]; norm_num [Frac.toRat]
  have e2 : (getLocationFromGeoIP ⟨377749, 10000⟩ ⟨-1224194, 10000⟩).longitude =
      -(4011439 : ℚ) / 32768 := by
    show (float32F (float64F ⟨-1224194, 10000⟩)).toRat = _
    rw [h2]; norm_num [Frac.toRat]
  refine ⟨rfl, e1, by rw [e2], ?_, ?_, ?_, ?_⟩
  · rw [e1]; norm_num
  · rw [e1]; norm_num
  · rw [e2]; norm_num
  · rw [e2]; norm_num

/-- C9 counterexample: an environment in which the client handle is
obtained but every DesktopId is rejected; `getLocationFromGDBus` returns
from this setup failure without ever calling `stopGeoClueClient`,
contradicting the claim that every return after the client has been
obtained stops the client. -/
theorem gdbus_no_stop_on_setup_failure :
    getLocationFromGDBus
      { clientPath := .ok "/org/freedesktop/GeoClue2/Client/1"
        desktopAccept := fun _ => false
        accuracyOk := true
        startOk := true
        pollResults := fun _ => none
        locData := fun _ => .error "x" } =
      (.error "failed to set desktop ID", false) := by
  rfl

/-- C9 (amended): on every execution path that reaches a return after the
client has been successfully started — a successful read, a failed read,
or an exhausted poll budget — the client is stopped before the function
returns; paths that fail during setup (DesktopId, accuracy, Start)
return without stopping it. -/
theorem gdbus_stop_after_start (env : GdbusEnv) (p : String)
    (hc : env.clientPath = .ok p)
    (hd : desktopIDs.any env.desktopAccept = true)
    (ha : env.accuracyOk = true) (hs : env.startOk = true) :
    (getLocationFromGDBus env).2 = true := by
  simp [getLocationFromGDBus, hc, hd, ha, hs]

/-- Witness for C9's amended theorem: a started client whose poll budget
runs out is still stopped. -/
theorem gdbus_stop_after_start_witness :
    (getLocationFromGDBus
      { clientPath := .ok "/org/freedesktop/GeoClue2/Client/1"
        desktopAccept := fun _ => true
        accuracyOk := true
        startOk := true
        pollResults := fun _ => none
        locData := fun _ => .error "x" }).2 = true :=
  gdbus_stop_after_start _ "/org/freedesktop/GeoClue2/Client/1" rfl (by decide)
    rfl rfl

/-- C10: with a verification pending and a well-formed 6-byte code, a
server rejection (`ok = false`) and an unparsable response both leave
the session exactly as it was — pending flag and pending token retained,
bearer token unchanged — and surface an error. -/
theorem VerifyTfa_failure_preserves_session (s : MfState) (code : String)
    (r : TfaVerifyResponse)
    (hp : s.tfaRequired = true) (ht : s.pendingTfaToken ≠ "")
    (hlen : goStrLen (trimSpace code) = 6) (hr : r.ok = false) :
    (VerifyTfa s code (.response r)).2.1 = s ∧
    (∃ e, (VerifyTfa s code (.response r)).1 = .error e) ∧
    (VerifyTfa s code .unparsable).2.1 = s ∧
    (VerifyTfa s code .unparsable).1 = .error "failed to parse TFA response" := by
  refine ⟨?_, ?_, ?_, ?_⟩ <;> simp [VerifyTfa, hp, ht, hlen, hr]

/-- Witness for C10: a pending session, the code "123456", a rejecting
response and an unparsable response. -/
theorem VerifyTfa_failure_preserves_session_witness :
    (VerifyTfa ⟨"https://x", "fam", "pw", "old", "tok", true, false⟩ "123456"
        (.response ⟨false, "bad code"⟩)).2.1 =
      ⟨"https://x", "fam", "pw", "old", "tok", true, false⟩ ∧
    (∃ e, (VerifyTfa ⟨"https://x", "fam", "pw", "old", "tok", true, false⟩
        "123456" (.response ⟨false, "bad code"⟩)).1 = .error e) ∧
    (VerifyTfa ⟨"https://x", "fam", "pw", "old", "tok", true, false⟩ "123456"
        .unparsable).2.1 =
      ⟨"https://x", "fam", "pw", "old", "tok", true, false⟩ ∧
    (VerifyTfa ⟨"https://x", "fam", "pw", "old", "tok", true, false⟩ "123456"
        .unparsable).1 = .error "failed to parse TFA response" :=
  VerifyTfa_failure_preserves_session _ "123456" _ rfl (by decide) (by decide) rfl

end MyFamily
